import Mathlib

/-!
Verification of the Supabase backend-proxy tools
(`src/tools/src/aden_tools/tools/supabase_tool/supabase_tool.py`).

The Python module is embedded shallowly:

* Python scalar values appearing in filters, payloads and projected
  records become the inductive `Value` (with `Value.vnull` for `None`).
* Python dictionaries returned by the tools become association lists
  `ToolDict := List (String × DVal)`, written in the same literal order
  as the source, so that the shape of every returned dictionary is a
  provable fact rather than a typing artifact.
* A raised exception travels in the `Except String` error channel,
  carrying `str(e)`.
* The injected credential store (`CredentialStoreAdapter`) is a function
  `String → Option String`, where `none` models `.get` raising
  `KeyError` and `some s` models a returned string (possibly empty).
  The environment (`os.getenv`) is likewise `String → Option String`.
* The backend SDK (`create_client`, the query builder's `execute`,
  `auth.admin.list_users`, `storage.list_buckets`) is an oracle
  `Backend`; each operation either returns data or raises.  The request
  handed to `execute` is reified as `DbRequest`, and each tool run also
  yields the list of requests it actually executed, so "performs no
  backend call" is statable.
-/

/-- Scalar values (Python scalars; `vnull` is Python `None`). -/
inductive Value where
  | vstr (s : String)
  | vint (n : Int)
  | vbool (b : Bool)
  | vnull
deriving DecidableEq, Repr

/-- A record / Python dict with scalar values, in insertion order. -/
abbrev Record := List (String × Value)

/-- Values of the dictionaries returned by the tools. -/
inductive DVal where
  | vbool (b : Bool)
  | vnat (n : Nat)
  | vstr (s : String)
  | vrecords (rs : List Record)
deriving DecidableEq, Repr

/-- A dictionary returned by a tool, in literal key order. -/
abbrev ToolDict := List (String × DVal)

/-- `d.get k` on a tool result dictionary (first binding wins). -/
def dictGet (d : ToolDict) (k : String) : Option DVal :=
  match d.find? (fun p => p.1 == k) with
  | some p => some p.2
  | none => none

/-- Python truthiness of an optional string: `None` and `""` are falsy. -/
def strTruthy : Option String → Bool
  | none => false
  | some s => !(s == "")

/-- The injected credential store: `get k` returns `some v`, or `none`
for a `KeyError` raise. -/
structure CredentialStore where
  get : String → Option String

/-- The process environment as read by `os.getenv`. -/
def Env : Type := String → Option String

/-- The `payload` argument: a single record or a list of records. -/
inductive Payload where
  | pdict (r : Record)
  | plist (rs : List Record)
deriving DecidableEq, Repr

/-- Python truthiness of the optional `payload` argument:
`None`, `{}` and `[]` are falsy. -/
def payloadTruthy : Option Payload → Bool
  | none => false
  | some (.pdict r) => !r.isEmpty
  | some (.plist rs) => !rs.isEmpty

/-- Python truthiness of the optional `query_filter` argument. -/
def filterTruthy : Option Record → Bool
  | none => false
  | some qf => !qf.isEmpty

/-- The request a `req.execute()` call sends to the backend, with the
equality conditions accumulated by the `.eq(k, v)` chain in order. -/
inductive DbRequest where
  | select (table : String) (eqFilters : List (String × Value))
  | insert (table : String) (payload : Payload)
  | update (table : String) (payload : Payload) (eqFilters : List (String × Value))
  | deleteRows (table : String) (eqFilters : List (String × Value))
deriving DecidableEq, Repr

/-- A user object returned by `auth.admin.list_users`, with dynamic
attributes: `none` means the attribute is absent on the object
(direct access raises `AttributeError`; `getattr` with default
yields `None`). -/
structure UserObj where
  id : Option Value
  email : Option Value
  created_at : Option Value
  last_sign_in_at : Option Value
deriving DecidableEq, Repr

/-- The `UserResponse` object: `users` is `none` when the object has no
`users` attribute at all (`hasattr` is false). -/
structure AuthResponse where
  users : Option (List UserObj)
deriving DecidableEq, Repr

/-- A bucket object returned by `storage.list_buckets`; `none` means the
attribute is absent. -/
structure BucketObj where
  id : Option Value
  name : Option Value
  public : Option Value
  created_at : Option Value
deriving DecidableEq, Repr

/-- The backend SDK as an oracle: each operation returns data or raises
(the `String` is `str(e)` of the raised exception). -/
structure Backend where
  createClient : String → String → Except String Unit
  runDb : DbRequest → Except String (List Record)
  listUsers : Except String AuthResponse
  listBuckets : Except String (List BucketObj)

/-- `str(e)` of the `AttributeError` raised by `u.id` when the user
object has no `id` attribute (the exact Python message mentions the
object's class; only the raising matters to the tools). -/
def idAttrErrMsg : String := "object has no attribute id"

/-- The `ValueError` message raised by `_get_supabase_client` when
resolution fails. -/
def credsRequiredMsg : String :=
  "SUPABASE_URL and SUPABASE_SERVICE_ROLE_KEY are required to use the Supabase tool"

/-- `_get_supabase_client` up to the `create_client` call: resolves the
(url, key) pair or raises `ValueError`.  Both store lookups sit in one
`try: ... except KeyError: pass`, so a `KeyError` on the URL lookup
skips the key lookup as well; a falsy (absent or empty) value falls
back to the environment variable of the same name. -/
def resolveCreds (credentials : Option CredentialStore) (env : Env) :
    Except String (String × String) :=
  let fromStore : Option String × Option String :=
    match credentials with
    | none => (none, none)
    | some c =>
      match c.get "SUPABASE_URL" with
      | none => (none, none)
      | some u =>
        match c.get "SUPABASE_SERVICE_ROLE_KEY" with
        | none => (some u, none)
        | some k => (some u, some k)
  let url : Option String :=
    if strTruthy fromStore.1 then fromStore.1 else env "SUPABASE_URL"
  let key : Option String :=
    if strTruthy fromStore.2 then fromStore.2 else env "SUPABASE_SERVICE_ROLE_KEY"
  if strTruthy url && strTruthy key then
    .ok (url.getD "", key.getD "")
  else
    .error credsRequiredMsg

/-- `_get_supabase_client`: resolve credentials, then `create_client`
(which may itself raise).  Result is the client handle (unit here) or
the raised exception's message. -/
def get_supabase_client (credentials : Option CredentialStore) (env : Env)
    (backend : Backend) : Except String Unit :=
  match resolveCreds credentials env with
  | .error e => .error e
  | .ok (url, key) => backend.createClient url key

/-- The equality-condition list built for a `select`: the source guards
the `.eq` loop with `if query_filter:`. -/
def selectFilters (query_filter : Option Record) : List (String × Value) :=
  match query_filter with
  | none => []
  | some qf => if qf.isEmpty then [] else qf

/-- An error-shaped result literal `{"error": msg}`. -/
def errDict (msg : String) : ToolDict := [("error", DVal.vstr msg)]

/-- One `result = req.execute()` site followed by
`return {"success": True, "data": result.data, "count": len(result.data)}`
(the `select` branch). -/
def execWithCount (backend : Backend) (req : DbRequest) :
    ToolDict × List DbRequest :=
  match backend.runDb req with
  | .ok data =>
    ([("success", DVal.vbool true), ("data", DVal.vrecords data),
      ("count", DVal.vnat data.length)], [req])
  | .error e => (errDict ("Failed to execute DB query: " ++ e), [req])

/-- One `result = req.execute()` site followed by
`return {"success": True, "data": result.data}` (the `insert`,
`update` and `delete` branches, which return no `count`). -/
def execNoCount (backend : Backend) (req : DbRequest) :
    ToolDict × List DbRequest :=
  match backend.runDb req with
  | .ok data =>
    ([("success", DVal.vbool true), ("data", DVal.vrecords data)], [req])
  | .error e => (errDict ("Failed to execute DB query: " ++ e), [req])

/-- The `if/elif` dispatch on `action` inside `supabase_db_query`,
executed after the client has been constructed. -/
def dbDispatch (backend : Backend) (table action : String)
    (query_filter : Option Record) (payload : Option Payload) :
    ToolDict × List DbRequest :=
  if action == "select" then
      execWithCount backend (DbRequest.select table (selectFilters query_filter))
    else if action == "insert" then
      if !payloadTruthy payload then
        (errDict "payload is required for insert action", [])
      else
        execNoCount backend (DbRequest.insert table (payload.getD (.plist [])))
    else if action == "update" then
      if !payloadTruthy payload then
        (errDict "payload is required for update action", [])
      else if !filterTruthy query_filter then
        (errDict "query_filter is required for update action", [])
      else
        execNoCount backend
          (DbRequest.update table (payload.getD (.plist [])) (query_filter.getD []))
    else if action == "delete" then
      if !filterTruthy query_filter then
        (errDict "query_filter is required for delete action", [])
      else
        execNoCount backend (DbRequest.deleteRows table (query_filter.getD []))
    else
      (errDict ("Unknown action: " ++ action ++ ". Use select, insert, update, or delete."),
       [])

/-- `supabase_db_query`, returning the result dictionary together with
the list of requests handed to `execute` (in order), mirroring the
source's try/except around client construction and dispatch. -/
def supabase_db_query_traced (credentials : Option CredentialStore) (env : Env)
    (backend : Backend) (table : String) (action : String := "select")
    (query_filter : Option Record := none) (payload : Option Payload := none) :
    ToolDict × List DbRequest :=
  match get_supabase_client credentials env backend with
  | .error e => (errDict ("Failed to execute DB query: " ++ e), [])
  | .ok _ => dbDispatch backend table action query_filter payload

/-- `supabase_db_query`: the dictionary the tool returns. -/
def supabase_db_query (credentials : Option CredentialStore) (env : Env)
    (backend : Backend) (table : String) (action : String := "select")
    (query_filter : Option Record := none) (payload : Option Payload := none) :
    ToolDict :=
  (supabase_db_query_traced credentials env backend table action query_filter payload).1

/-- Projection of one user object in the `for u in result.users` loop:
`u.id` is a direct attribute access and raises when absent; the other
three fields use `getattr(u, _, None)`. -/
def projectUser (u : UserObj) : Except String Record :=
  match u.id with
  | none => .error idAttrErrMsg
  | some i =>
    .ok [("id", i),
         ("email", u.email.getD .vnull),
         ("created_at", u.created_at.getD .vnull),
         ("last_sign_in_at", u.last_sign_in_at.getD .vnull)]

/-- The users loop: appends projections in order, aborting at the first
raise. -/
def projectUsers : List UserObj → Except String (List Record)
  | [] => .ok []
  | u :: us =>
    match projectUser u with
    | .error e => .error e
    | .ok r =>
      match projectUsers us with
      | .error e => .error e
      | .ok rs => .ok (r :: rs)

/-- `supabase_auth_list_users`. -/
def supabase_auth_list_users (credentials : Option CredentialStore) (env : Env)
    (backend : Backend) : ToolDict :=
  match get_supabase_client credentials env backend with
  | .error e => errDict ("Failed to list auth users: " ++ e)
  | .ok _ =>
    match backend.listUsers with
    | .error e => errDict ("Failed to list auth users: " ++ e)
    | .ok result =>
      match result.users with
      | none =>
        [("success", DVal.vbool true), ("data", DVal.vrecords []),
         ("count", DVal.vnat 0)]
      | some us =>
        match projectUsers us with
        | .error e => errDict ("Failed to list auth users: " ++ e)
        | .ok users_list =>
          [("success", DVal.vbool true), ("data", DVal.vrecords users_list),
           ("count", DVal.vnat users_list.length)]

/-- Projection of one bucket object: all four fields via `getattr`
with a `None` default, so no attribute access raises. -/
def projectBucket (b : BucketObj) : Record :=
  [("id", b.id.getD .vnull),
   ("name", b.name.getD .vnull),
   ("public", b.public.getD .vnull),
   ("created_at", b.created_at.getD .vnull)]

/-- `supabase_storage_list_buckets`. -/
def supabase_storage_list_buckets (credentials : Option CredentialStore)
    (env : Env) (backend : Backend) : ToolDict :=
  match get_supabase_client credentials env backend with
  | .error e => errDict ("Failed to list storage buckets: " ++ e)
  | .ok _ =>
    match backend.listBuckets with
    | .error e => errDict ("Failed to list storage buckets: " ++ e)
    | .ok buckets =>
      let bucket_list := buckets.map projectBucket
      [("success", DVal.vbool true), ("data", DVal.vrecords bucket_list),
       ("count", DVal.vnat bucket_list.length)]

/-- A result is success-shaped: `success: true` and a `data` key are
present, no `error` key. -/
def successShaped (d : ToolDict) : Prop :=
  dictGet d "success" = some (DVal.vbool true) ∧
  (∃ rs, dictGet d "data" = some (DVal.vrecords rs)) ∧
  dictGet d "error" = none

/-- A result is error-shaped: an `error` key is present, no `success`
or `data` key. -/
def errorShaped (d : ToolDict) : Prop :=
  (∃ m, dictGet d "error" = some (DVal.vstr m)) ∧
  dictGet d "success" = none ∧
  dictGet d "data" = none

/-- Exactly one of the two result shapes holds. -/
def shapeOK (d : ToolDict) : Prop :=
  (successShaped d ∧ ¬ errorShaped d) ∨ (errorShaped d ∧ ¬ successShaped d)

/-- An environment with no Supabase variables set. -/
def emptyEnv : Env := fun _ => none

/-- An environment supplying both variables. -/
def demoEnv : Env := fun k => if k == "SUPABASE_URL" then some "https://demo.supabase.co" else some "demo-key"

/-- A demo user object with every attribute present. -/
def demoUser : UserObj :=
  UserObj.mk (some (Value.vstr "user-123")) (some (Value.vstr "test@example.com"))
    (some (Value.vstr "2024-01-01")) none

/-- A demo backend on which every operation succeeds. -/
def demoBackend : Backend where
  createClient := fun _ _ => .ok ()
  runDb := fun _ => .ok [[("id", Value.vint 1), ("name", Value.vstr "Test")]]
  listUsers := .ok (AuthResponse.mk (some [demoUser]))
  listBuckets := .ok
    [BucketObj.mk (some (Value.vstr "bucket-1")) (some (Value.vstr "Public Assets")) none none]

/-- A backend on which every operation raises with message `e`. -/
def failingBackend (e : String) : Backend where
  createClient := fun _ _ => .ok ()
  runDb := fun _ => .error e
  listUsers := .error e
  listBuckets := .error e

/-- Claim C1 counterexample: with no credential store and an empty
environment, credential resolution fails, yet each of the three tools
returns an error dictionary embedding the configuration message — the
`ValueError` is raised inside the try-block and converted, it does not
propagate to the caller as the claim states. -/
theorem c1_counterexample :
    resolveCreds none emptyEnv = Except.error credsRequiredMsg ∧
    supabase_db_query none emptyEnv demoBackend "users" "select" none none
      = errDict ("Failed to execute DB query: " ++ credsRequiredMsg) ∧
    supabase_auth_list_users none emptyEnv demoBackend
      = errDict ("Failed to list auth users: " ++ credsRequiredMsg) ∧
    supabase_storage_list_buckets none emptyEnv demoBackend
      = errDict ("Failed to list storage buckets: " ++ credsRequiredMsg) :=
  ⟨rfl, rfl, rfl, rfl⟩

/-- Claim C1 (amended): when credential resolution fails, the resolver's
exception is caught by each tool's try-block like any other exception
and converted to that tool's error dictionary; no error category
escapes the tool boundary as an exception. -/
theorem c1_amended (credentials : Option CredentialStore) (env : Env)
    (backend : Backend) (table action : String) (qf : Option Record)
    (p : Option Payload)
    (h : resolveCreds credentials env = Except.error credsRequiredMsg) :
    supabase_db_query credentials env backend table action qf p
      = errDict ("Failed to execute DB query: " ++ credsRequiredMsg) ∧
    supabase_auth_list_users credentials env backend
      = errDict ("Failed to list auth users: " ++ credsRequiredMsg) ∧
    supabase_storage_list_buckets credentials env backend
      = errDict ("Failed to list storage buckets: " ++ credsRequiredMsg) := by
  have hc : get_supabase_client credentials env backend
      = Except.error credsRequiredMsg := by
    unfold get_supabase_client
    rw [h]
  refine ⟨?_, ?_, ?_⟩
  · unfold supabase_db_query supabase_db_query_traced dbDispatch
    rw [hc]
  · unfold supabase_auth_list_users
    rw [hc]
  · unfold supabase_storage_list_buckets
    rw [hc]

/-- Claim C1 amended, witnessed at a concrete input. -/
theorem c1_amended_witness :
    supabase_db_query none emptyEnv (failingBackend "boom") "users" "insert" none none
      = errDict ("Failed to execute DB query: " ++ credsRequiredMsg) ∧
    supabase_auth_list_users none emptyEnv (failingBackend "boom")
      = errDict ("Failed to list auth users: " ++ credsRequiredMsg) ∧
    supabase_storage_list_buckets none emptyEnv (failingBackend "boom")
      = errDict ("Failed to list storage buckets: " ++ credsRequiredMsg) :=
  c1_amended none emptyEnv (failingBackend "boom") "users" "insert" none none rfl

/-- Claim C3: for every action outside select/insert/update/delete,
given that client construction succeeds, `supabase_db_query` returns
exactly the unknown-action error dictionary, raises no exception (the
embedding is total and the result is a returned dictionary), and hands
no request to `execute` (empty trace). -/
theorem c3_unknown_action (credentials : Option CredentialStore) (env : Env)
    (backend : Backend) (table : String) (qf : Option Record)
    (p : Option Payload) (action : String)
    (hc : get_supabase_client credentials env backend = Except.ok ())
    (ha : action ∉ (["select", "insert", "update", "delete"] : List String)) :
    supabase_db_query_traced credentials env backend table action qf p
      = (errDict ("Unknown action: " ++ action ++ ". Use select, insert, update, or delete."),
         []) := by
  have h1 : (action == "select") = false := by
    simp only [beq_eq_false_iff_ne, ne_eq]
    intro h; exact ha (by simp [h])
  have h2 : (action == "insert") = false := by
    simp only [beq_eq_false_iff_ne, ne_eq]
    intro h; exact ha (by simp [h])
  have h3 : (action == "update") = false := by
    simp only [beq_eq_false_iff_ne, ne_eq]
    intro h; exact ha (by simp [h])
  have h4 : (action == "delete") = false := by
    simp only [beq_eq_false_iff_ne, ne_eq]
    intro h; exact ha (by simp [h])
  unfold supabase_db_query_traced dbDispatch
  rw [hc, h1, h2, h3, h4]
  rfl

/-- Claim C3, witnessed at a concrete unknown action. -/
theorem c3_unknown_action_witness :
    supabase_db_query_traced none demoEnv demoBackend "users" "upsert" none none
      = (errDict "Unknown action: upsert. Use select, insert, update, or delete.", []) :=
  c3_unknown_action none demoEnv demoBackend "users" none none "upsert" rfl
    (by decide)

/-- Claim C4: with a constructed client, `insert` with a falsy payload,
`update` with a falsy payload (checked before the filter, so this holds
whatever `query_filter` is), `update` with a truthy payload but falsy
filter, and `delete` with a falsy filter each return the corresponding
error dictionary with an empty execute trace — no backend call. -/
theorem c4_validation_errors (credentials : Option CredentialStore) (env : Env)
    (backend : Backend) (table : String) (qf : Option Record)
    (p : Option Payload)
    (hc : get_supabase_client credentials env backend = Except.ok ()) :
    (payloadTruthy p = false →
      supabase_db_query_traced credentials env backend table "insert" qf p
        = (errDict "payload is required for insert action", [])) ∧
    (payloadTruthy p = false →
      supabase_db_query_traced credentials env backend table "update" qf p
        = (errDict "payload is required for update action", [])) ∧
    (payloadTruthy p = true → filterTruthy qf = false →
      supabase_db_query_traced credentials env backend table "update" qf p
        = (errDict "query_filter is required for update action", [])) ∧
    (filterTruthy qf = false →
      supabase_db_query_traced credentials env backend table "delete" qf p
        = (errDict "query_filter is required for delete action", [])) := by
  refine ⟨?_, ?_, ?_, ?_⟩
  · intro hp
    unfold supabase_db_query_traced dbDispatch
    rw [hc, hp]
    rfl
  · intro hp
    unfold supabase_db_query_traced dbDispatch
    rw [hc, hp]
    rfl
  · intro hp hf
    unfold supabase_db_query_traced dbDispatch
    rw [hc, hp, hf]
    rfl
  · intro hf
    unfold supabase_db_query_traced dbDispatch
    rw [hc, hf]
    rfl

/-- Claim C4, witnessed: missing payload/filter at concrete inputs. -/
theorem c4_validation_errors_witness :
    (supabase_db_query_traced none demoEnv demoBackend "users" "insert" none
        (some (Payload.pdict []))
      = (errDict "payload is required for insert action", [])) ∧
    (supabase_db_query_traced none demoEnv demoBackend "users" "update" none
        (some (Payload.pdict []))
      = (errDict "payload is required for update action", [])) ∧
    (supabase_db_query_traced none demoEnv demoBackend "users" "delete" none
        (some (Payload.pdict []))
      = (errDict "query_filter is required for delete action", [])) := by
  have h := c4_validation_errors none demoEnv demoBackend "users" none
    (some (Payload.pdict [])) rfl
  exact ⟨h.1 rfl, h.2.1 rfl, h.2.2.2 rfl⟩

/-- Claim C5: a `select` executes exactly one request carrying one
equality condition per filter entry (for a truthy filter the request's
condition list is the filter's entry list itself), and on backend data
`data` returns `{success: true, data, count = data.length}`; with the
same client, successful `insert`, `update` and `delete` calls return
dictionaries with no `count` key. -/
theorem c5_select_shape (credentials : Option CredentialStore) (env : Env)
    (backend : Backend) (table : String) (qf : Option Record)
    (p : Option Payload) (data : List Record)
    (hc : get_supabase_client credentials env backend = Except.ok ())
    (hrun : backend.runDb (DbRequest.select table (selectFilters qf))
      = Except.ok data) :
    supabase_db_query_traced credentials env backend table "select" qf p
      = ([("success", DVal.vbool true), ("data", DVal.vrecords data),
          ("count", DVal.vnat data.length)],
         [DbRequest.select table (selectFilters qf)]) ∧
    (∀ l : Record, l ≠ [] → selectFilters (some l) = l) ∧
    (∀ action' : String, action' ∈ (["insert", "update", "delete"] : List String) →
      ∀ qf' : Option Record, ∀ p' : Option Payload,
        dictGet (supabase_db_query credentials env backend table action' qf' p')
          "count" = none) := by
  refine ⟨?_, ?_, ?_⟩
  · unfold supabase_db_query_traced
    rw [hc]
    show execWithCount backend (DbRequest.select table (selectFilters qf)) = _
    unfold execWithCount
    rw [hrun]
  · intro l hl
    unfold selectFilters
    simp [hl]
  · intro action' ha qf' p'
    have hnc : ∀ req, dictGet (execNoCount backend req).1 "count" = none := by
      intro req
      unfold execNoCount
      cases backend.runDb req with
      | ok d => rfl
      | error e => rfl
    fin_cases ha
    · unfold supabase_db_query supabase_db_query_traced dbDispatch
      rw [hc]
      cases hp : payloadTruthy p' with
      | false => exact rfl
      | true => exact hnc _
    · unfold supabase_db_query supabase_db_query_traced dbDispatch
      rw [hc]
      cases hp : payloadTruthy p' with
      | false => exact rfl
      | true =>
        cases hf : filterTruthy qf' with
        | false => exact rfl
        | true => exact hnc _
    · unfold supabase_db_query supabase_db_query_traced dbDispatch
      rw [hc]
      cases hf : filterTruthy qf' with
      | false => exact rfl
      | true => exact hnc _

/-- Claim C5, witnessed: a concrete select with a one-entry filter. -/
theorem c5_select_shape_witness :
    supabase_db_query_traced none demoEnv demoBackend "users" "select"
        (some [("status", Value.vstr "active")]) none
      = ([("success", DVal.vbool true),
          ("data", DVal.vrecords [[("id", Value.vint 1), ("name", Value.vstr "Test")]]),
          ("count", DVal.vnat 1)],
         [DbRequest.select "users" [("status", Value.vstr "active")]]) :=
  (c5_select_shape none demoEnv demoBackend "users"
    (some [("status", Value.vstr "active")]) none
    [[("id", Value.vint 1), ("name", Value.vstr "Test")]] rfl rfl).1

/-- Claim C2: when the backend SDK raises (message `e`) inside a tool,
`supabase_db_query` — whenever it actually issued an execute call —
returns `{error: "Failed to execute DB query: e"}`, the auth tool
returns `{error: "Failed to list auth users: e"}` and the storage tool
returns `{error: "Failed to list storage buckets: e"}`; in the
embedding every tool is a total function into dictionaries, so the
exception never reaches the caller. -/
theorem c2_backend_exceptions (credentials : Option CredentialStore) (env : Env)
    (backend : Backend) (table action : String) (qf : Option Record)
    (p : Option Payload) (e : String)
    (hc : get_supabase_client credentials env backend = Except.ok ())
    (hrun : ∀ req, backend.runDb req = Except.error e)
    (husers : backend.listUsers = Except.error e)
    (hbuckets : backend.listBuckets = Except.error e) :
    ((supabase_db_query_traced credentials env backend table action qf p).2 ≠ [] →
      supabase_db_query credentials env backend table action qf p
        = errDict ("Failed to execute DB query: " ++ e)) ∧
    supabase_auth_list_users credentials env backend
      = errDict ("Failed to list auth users: " ++ e) ∧
    supabase_storage_list_buckets credentials env backend
      = errDict ("Failed to list storage buckets: " ++ e) := by
  have hdisp : supabase_db_query_traced credentials env backend table action qf p
      = dbDispatch backend table action qf p := by
    unfold supabase_db_query_traced
    rw [hc]
  have hwc : ∀ req, execWithCount backend req
      = (errDict ("Failed to execute DB query: " ++ e), [req]) := by
    intro req
    unfold execWithCount
    rw [hrun req]
  have hnc : ∀ req, execNoCount backend req
      = (errDict ("Failed to execute DB query: " ++ e), [req]) := by
    intro req
    unfold execNoCount
    rw [hrun req]
  refine ⟨?_, ?_, ?_⟩
  · intro ht
    rw [hdisp] at ht
    unfold supabase_db_query
    rw [hdisp]
    unfold dbDispatch at ht ⊢
    split_ifs at ht ⊢ <;>
      first
        | exact absurd rfl ht
        | (rw [hwc])
        | (rw [hnc])
  · unfold supabase_auth_list_users
    rw [hc, husers]
  · unfold supabase_storage_list_buckets
    rw [hc, hbuckets]

/-- Claim C2, witnessed on a backend that raises with message boom. -/
theorem c2_backend_exceptions_witness :
    supabase_db_query none demoEnv (failingBackend "boom") "users" "select" none none
      = errDict ("Failed to execute DB query: " ++ "boom") ∧
    supabase_auth_list_users none demoEnv (failingBackend "boom")
      = errDict ("Failed to list auth users: " ++ "boom") ∧
    supabase_storage_list_buckets none demoEnv (failingBackend "boom")
      = errDict ("Failed to list storage buckets: " ++ "boom") :=
  have h := c2_backend_exceptions none demoEnv (failingBackend "boom") "users"
    "select" none none "boom" rfl (fun _ => rfl) rfl rfl
  ⟨h.1 (by decide), h.2.1, h.2.2⟩

/-- The credential store of the C6 counterexample: the URL lookup
raises `KeyError`; the key lookup, were it reached, would return
store-key. -/
def c6Store : CredentialStore :=
  CredentialStore.mk (fun k =>
    if k == "SUPABASE_SERVICE_ROLE_KEY" then some "store-key" else none)

/-- The environment of the C6 counterexample, supplying both values. -/
def c6Env : Env :=
  fun k => if k == "SUPABASE_URL" then some "env-url" else some "env-key"

/-- Claim C6 counterexample: the URL lookup raising `KeyError` aborts
the shared try-block before the key lookup runs, so the key does NOT
come from the credential store (which holds store-key) but falls back
to the environment (env-key) — refuting the claimed independence of
the two lookups. -/
theorem c6_counterexample :
    c6Store.get "SUPABASE_URL" = none ∧
    c6Store.get "SUPABASE_SERVICE_ROLE_KEY" = some "store-key" ∧
    resolveCreds (some c6Store) c6Env = Except.ok ("env-url", "env-key") ∧
    ("env-key" : String) ≠ "store-key" :=
  ⟨rfl, rfl, rfl, by decide⟩

/-- Claim C6 (amended): the two store lookups share one try/except, so
a `KeyError` on the URL lookup makes resolution behave exactly as if
no store were injected (both values from the environment); a
`KeyError` on the key lookup alone still takes the URL from the store
and only the key from the environment; and a non-empty value present
in the store takes precedence over the environment for both fields. -/
theorem c6_amended (c : CredentialStore) (env : Env) :
    (c.get "SUPABASE_URL" = none →
      resolveCreds (some c) env = resolveCreds none env) ∧
    (∀ u k : String, c.get "SUPABASE_URL" = some u → u ≠ "" →
      c.get "SUPABASE_SERVICE_ROLE_KEY" = none →
      env "SUPABASE_SERVICE_ROLE_KEY" = some k → k ≠ "" →
      resolveCreds (some c) env = Except.ok (u, k)) ∧
    (∀ u k : String, c.get "SUPABASE_URL" = some u → u ≠ "" →
      c.get "SUPABASE_SERVICE_ROLE_KEY" = some k → k ≠ "" →
      resolveCreds (some c) env = Except.ok (u, k)) := by
  refine ⟨?_, ?_, ?_⟩
  · intro h
    simp [resolveCreds, h]
  · intro u k hu hune hk hek hkne
    simp [resolveCreds, strTruthy, hu, hk, hek, hune, hkne]
  · intro u k hu hune hk hkne
    simp [resolveCreds, strTruthy, hu, hk, hune, hkne]

/-- Claim C6 amended, witnessed: a store supplying both values wins
over an empty environment. -/
theorem c6_amended_witness :
    resolveCreds (some (CredentialStore.mk (fun _ => some "sv"))) emptyEnv
      = Except.ok ("sv", "sv") :=
  (c6_amended (CredentialStore.mk (fun _ => some "sv")) emptyEnv).2.2
    "sv" "sv" rfl (by decide) rfl (by decide)

/-- The user object of the C7 counterexample: `id` absent, `email`
present. -/
def c7User : UserObj :=
  UserObj.mk none (some (Value.vstr "no-id@example.com")) none none

/-- A backend whose user listing contains the id-less user. -/
def c7Backend : Backend :=
  { demoBackend with listUsers := Except.ok (AuthResponse.mk (some [c7User])) }

/-- `projectUser` only ever raises the missing-id `AttributeError`. -/
theorem projectUser_error_eq (v : UserObj) (e : String)
    (h : projectUser v = Except.error e) : e = idAttrErrMsg := by
  unfold projectUser at h
  cases hv : v.id with
  | none =>
    rw [hv] at h
    exact (Except.error.inj h).symm
  | some i =>
    rw [hv] at h
    cases h

/-- If any user in the list lacks an `id` attribute, the projection
loop raises the missing-id `AttributeError`. -/
theorem projectUsers_error_of_mem (us : List UserObj) (u : UserObj)
    (hm : u ∈ us) (hid : u.id = none) :
    projectUsers us = Except.error idAttrErrMsg := by
  induction us with
  | nil => cases hm
  | cons v vs ih =>
    unfold projectUsers
    rcases List.mem_cons.mp hm with h | h
    · subst h
      unfold projectUser
      rw [hid]
    · cases hp : projectUser v with
      | error e =>
        rw [projectUser_error_eq v e hp]
      | ok r =>
        rw [ih h]

/-- Claim C7 counterexample: on a backend returning one user whose
source object omits `id` (but has an email), the tool returns an
error-shaped dictionary — `u.id` is a direct attribute access whose
`AttributeError` aborts the whole call — not a success record with a
null `id` as the claim states. -/
theorem c7_counterexample :
    c7User.id = none ∧
    supabase_auth_list_users none demoEnv c7Backend
      = errDict ("Failed to list auth users: " ++ idAttrErrMsg) ∧
    errorShaped (supabase_auth_list_users none demoEnv c7Backend) :=
  ⟨rfl, rfl, ⟨_, rfl⟩, rfl, rfl⟩

/-- Claim C7 (amended): each projected user record has exactly the
fields id, email, created_at, last_sign_in_at, and email/created_at/
last_sign_in_at map to null when the source object omits them; `id`,
however, is accessed directly, and a user object without `id` makes
the whole call return the error dictionary instead. -/
theorem c7_amended (u : UserObj) :
    (∀ i, u.id = some i →
      projectUser u = Except.ok
        [("id", i), ("email", u.email.getD Value.vnull),
         ("created_at", u.created_at.getD Value.vnull),
         ("last_sign_in_at", u.last_sign_in_at.getD Value.vnull)]) ∧
    (u.id = none → projectUser u = Except.error idAttrErrMsg) ∧
    (∀ (credentials : Option CredentialStore) (env : Env) (backend : Backend)
        (us : List UserObj),
      get_supabase_client credentials env backend = Except.ok () →
      backend.listUsers = Except.ok (AuthResponse.mk (some us)) →
      u ∈ us → u.id = none →
      supabase_auth_list_users credentials env backend
        = errDict ("Failed to list auth users: " ++ idAttrErrMsg)) := by
  refine ⟨?_, ?_, ?_⟩
  · intro i hi
    unfold projectUser
    rw [hi]
  · intro hid
    unfold projectUser
    rw [hid]
  · intro credentials env backend us hc hl hm hid
    unfold supabase_auth_list_users
    rw [hc, hl]
    simp only [projectUsers_error_of_mem us u hm hid]

/-- Claim C7 amended, witnessed: the present-id projection at a
concrete user. -/
theorem c7_amended_witness :
    projectUser demoUser = Except.ok
      [("id", Value.vstr "user-123"),
       ("email", Value.vstr "test@example.com"),
       ("created_at", Value.vstr "2024-01-01"),
       ("last_sign_in_at", Value.vnull)] :=
  (c7_amended demoUser).1 (Value.vstr "user-123") rfl

/-- An error dictionary is error-shaped and not success-shaped. -/
theorem shapeOK_errDict (m : String) : shapeOK (errDict m) := by
  right
  constructor
  · exact ⟨⟨m, rfl⟩, rfl, rfl⟩
  · rintro ⟨hs, -, -⟩
    exact Option.noConfusion hs

/-- A success dictionary without count is success-shaped only. -/
theorem shapeOK_success2 (rs : List Record) :
    shapeOK [("success", DVal.vbool true), ("data", DVal.vrecords rs)] := by
  left
  constructor
  · exact ⟨rfl, ⟨rs, rfl⟩, rfl⟩
  · rintro ⟨⟨m, he⟩, -, -⟩
    exact Option.noConfusion he

/-- A success dictionary with count is success-shaped only. -/
theorem shapeOK_success3 (rs : List Record) (n : Nat) :
    shapeOK [("success", DVal.vbool true), ("data", DVal.vrecords rs),
      ("count", DVal.vnat n)] := by
  left
  constructor
  · exact ⟨rfl, ⟨rs, rfl⟩, rfl⟩
  · rintro ⟨⟨m, he⟩, -, -⟩
    exact Option.noConfusion he

/-- Every execute-with-count outcome is exactly one shape. -/
theorem execWithCount_shape (backend : Backend) (req : DbRequest) :
    shapeOK (execWithCount backend req).1 := by
  unfold execWithCount
  cases backend.runDb req with
  | ok d => exact shapeOK_success3 d d.length
  | error e => exact shapeOK_errDict _

/-- Every execute-without-count outcome is exactly one shape. -/
theorem execNoCount_shape (backend : Backend) (req : DbRequest) :
    shapeOK (execNoCount backend req).1 := by
  unfold execNoCount
  cases backend.runDb req with
  | ok d => exact shapeOK_success2 d
  | error e => exact shapeOK_errDict _

/-- Every dispatch outcome is exactly one shape. -/
theorem dbDispatch_shape (backend : Backend) (table action : String)
    (qf : Option Record) (p : Option Payload) :
    shapeOK (dbDispatch backend table action qf p).1 := by
  unfold dbDispatch
  split_ifs <;>
    first
      | exact execWithCount_shape _ _
      | exact execNoCount_shape _ _
      | exact shapeOK_errDict _

/-- Claim C8: for every credential source, environment, backend
behaviour and argument combination, each of the three tools returns a
dictionary that is exactly one of the two shapes — success-shaped
(success: true with data, no error key) or error-shaped (an error key,
no success/data keys) — and never both. -/
theorem c8_result_shapes (credentials : Option CredentialStore) (env : Env)
    (backend : Backend) (table action : String) (qf : Option Record)
    (p : Option Payload) :
    shapeOK (supabase_db_query credentials env backend table action qf p) ∧
    shapeOK (supabase_auth_list_users credentials env backend) ∧
    shapeOK (supabase_storage_list_buckets credentials env backend) := by
  refine ⟨?_, ?_, ?_⟩
  · unfold supabase_db_query supabase_db_query_traced
    cases get_supabase_client credentials env backend with
    | error e => exact shapeOK_errDict _
    | ok u => exact dbDispatch_shape backend table action qf p
  · unfold supabase_auth_list_users
    cases get_supabase_client credentials env backend with
    | error e => exact shapeOK_errDict _
    | ok u =>
      dsimp only
      cases backend.listUsers with
      | error e => exact shapeOK_errDict _
      | ok resp =>
        dsimp only
        cases resp with
        | mk usersAttr =>
          dsimp only
          cases usersAttr with
          | none => exact shapeOK_success3 [] 0
          | some us =>
            dsimp only
            cases projectUsers us with
            | error e => exact shapeOK_errDict _
            | ok rs => exact shapeOK_success3 rs rs.length
  · unfold supabase_storage_list_buckets
    cases get_supabase_client credentials env backend with
    | error e => exact shapeOK_errDict _
    | ok u =>
      cases backend.listBuckets with
      | error e => exact shapeOK_errDict _
      | ok bs => exact shapeOK_success3 (bs.map projectBucket) (bs.map projectBucket).length

/-- The backend of the C9 witness: the list-users response object has
no users attribute. -/
def c9Backend : Backend :=
  { demoBackend with listUsers := Except.ok (AuthResponse.mk none) }

/-- Claim C9: when the list-users response object has no users
attribute, the tool returns the success-shaped empty result
`{success: true, data: [], count: 0}`, not an error. -/
theorem c9_missing_users_attr (credentials : Option CredentialStore)
    (env : Env) (backend : Backend)
    (hc : get_supabase_client credentials env backend = Except.ok ())
    (hu : backend.listUsers = Except.ok (AuthResponse.mk none)) :
    supabase_auth_list_users credentials env backend
      = [("success", DVal.vbool true), ("data", DVal.vrecords []),
         ("count", DVal.vnat 0)] := by
  unfold supabase_auth_list_users
  rw [hc, hu]

/-- Claim C9, witnessed at a concrete backend. -/
theorem c9_missing_users_attr_witness :
    supabase_auth_list_users none demoEnv c9Backend
      = [("success", DVal.vbool true), ("data", DVal.vrecords []),
         ("count", DVal.vnat 0)] :=
  c9_missing_users_attr none demoEnv c9Backend rfl rfl

/-- Claim C10: a select with query_filter omitted behaves identically
to one with an empty mapping (no equality condition is applied in
either case), and insert/update treat an empty dict or empty list
payload exactly like a missing payload — in every case including the
executed-request trace, for every credential source, environment and
backend. -/
theorem c10_falsy_args_equivalence (credentials : Option CredentialStore)
    (env : Env) (backend : Backend) (table : String) (qf : Option Record)
    (p : Option Payload) :
    supabase_db_query_traced credentials env backend table "select" none p
      = supabase_db_query_traced credentials env backend table "select" (some []) p ∧
    selectFilters none = [] ∧
    selectFilters (some []) = [] ∧
    (supabase_db_query_traced credentials env backend table "insert" qf
        (some (Payload.pdict []))
      = supabase_db_query_traced credentials env backend table "insert" qf none) ∧
    (supabase_db_query_traced credentials env backend table "insert" qf
        (some (Payload.plist []))
      = supabase_db_query_traced credentials env backend table "insert" qf none) ∧
    (supabase_db_query_traced credentials env backend table "update" qf
        (some (Payload.pdict []))
      = supabase_db_query_traced credentials env backend table "update" qf none) ∧
    (supabase_db_query_traced credentials env backend table "update" qf
        (some (Payload.plist []))
      = supabase_db_query_traced credentials env backend table "update" qf none) := by
  refine ⟨?_, rfl, rfl, ?_, ?_, ?_, ?_⟩ <;>
    (unfold supabase_db_query_traced
     cases get_supabase_client credentials env backend with
     | error e => rfl
     | ok u => rfl)
